import Mathlib

/-!
Verification of the NiftyPET `ninst` resource/configuration module
(`niftypet/ninst/raw/resources.py`).

The Python module builds, per scanner device, a configuration dictionary
("Cnt") mapping string keys to scalars, lists and one 4x4 matrix.  We embed
the dictionary as a function from keys to `Option Val`; the finitely many
string keys the module ever uses are represented by the enumeration `K`
(two keys are equal exactly when the strings are, e.g. `K.DEV_ID` and
`K.DEVID` are distinct keys).  Python ints are `Int`; Python floats are
exact fractions: every float literal in the source is decimal, and every
float operation the module performs (`+ - * / ** round format`) is exact
rational arithmetic here.  Fractions are a custom normalized
numerator/denominator pair `NInst.Q`, kept fully kernel-computable so that
the theorems below can be settled by `decide`.  `round(x, n)` and
Python 6-decimal float formatting is decimal rounding with ties-to-even,
the rounding mode of Python.  The irrational constant `pi` occurs only in the
`ALPHA` fields; its unrounded occurrences are kept symbolic (`Val.pimul c`
stands for `c * pi`) and the single rounded occurrence uses a rational
enclosure of `pi` far tighter than the 4-decimal rounding applied to it.
-/

namespace NInst

/-- An exact fraction `n / d` with `d > 0`, numerator and denominator
coprime.  Every constructor below normalizes, so propositional equality of
`Q` values is equality of the fractions they denote. -/
structure Q where
  n : ℤ
  d : ℤ
  deriving DecidableEq

/-- Build the normalized fraction `a / b` (for `b ≠ 0`; the module never
divides by zero). -/
def Q.norm (a b : ℤ) : Q :=
  if b = 0 then ⟨0, 1⟩
  else
    let s : ℤ := if b < 0 then -1 else 1
    let a2 := s * a
    let b2 := s * b
    let g : ℤ := (Int.gcd a2 b2 : ℤ)
    ⟨a2 / g, b2 / g⟩

/-- The integer `z` as a fraction. -/
def Q.ofInt (z : ℤ) : Q := ⟨z, 1⟩

/-- The decimal literal `m * 10 ^ (-e)`; e.g. the Python float `31.18`
is `Q.dec 3118 2`. -/
def Q.dec (m : ℤ) (e : ℕ) : Q := Q.norm m (10 ^ e)

instance (k : ℕ) : OfNat Q k := ⟨⟨(k : ℤ), 1⟩⟩

instance : Add Q := ⟨fun a b => Q.norm (a.n * b.d + b.n * a.d) (a.d * b.d)⟩

instance : Sub Q := ⟨fun a b => Q.norm (a.n * b.d - b.n * a.d) (a.d * b.d)⟩

instance : Neg Q := ⟨fun a => ⟨-a.n, a.d⟩⟩

instance : Mul Q := ⟨fun a b => Q.norm (a.n * b.n) (a.d * b.d)⟩

instance : Div Q := ⟨fun a b => Q.norm (a.n * b.d) (a.d * b.n)⟩

instance : Inv Q := ⟨fun a => Q.norm a.d a.n⟩

instance : Pow Q ℕ := ⟨fun a k => Q.norm (a.n ^ k) (a.d ^ k)⟩

/-- Order by cross-multiplication (denominators are positive). -/
instance : LT Q := ⟨fun a b => a.n * b.d < b.n * a.d⟩

instance (a b : Q) : Decidable (a < b) :=
  inferInstanceAs (Decidable (a.n * b.d < b.n * a.d))

/-- `⌊a⌋` (denominators are positive, so flooring division is the floor). -/
def Q.floor (a : Q) : ℤ := Int.fdiv a.n a.d

/-- `⌈a⌉`. -/
def Q.ceil (a : Q) : ℤ := -Q.floor (-a)

/-- Round a fraction to the nearest integer, ties to even (the rounding
mode of the Python `round` builtin and of 6-decimal float formatting). -/
def rnd2even (x : Q) : ℤ :=
  let f : ℤ := x.floor
  let r : Q := x - Q.ofInt f
  if r < Q.dec 5 1 then f
  else if Q.dec 5 1 < r then f + 1
  else if f % 2 = 0 then f else f + 1

/-- Python `round(x, k)` (and formatting to `k` decimal places) on `k` decimal
places, over exact fractions. -/
def pyround (x : Q) (k : ℕ) : Q :=
  Q.norm (rnd2even (x * Q.ofInt (10 ^ k))) (10 ^ k)

/-- Newton iteration for the integer square root, fuel-driven; the early
exit makes the result stationary once reached.  Starting the iteration at
`n` with fuel 128 computes `⌊sqrt n⌋` for every `n < 2 ^ 64`; the module
only evaluates it below `10 ^ 8`. -/
def isqrtFuel : ℕ → ℕ → ℕ → ℕ
  | 0, _, x => x
  | f + 1, n, x =>
    let y := (x + n / x) / 2
    if y < x then isqrtFuel f n y else x

/-- `⌊sqrt n⌋` for natural `n` (see `isqrtFuel`). -/
def isqrt (n : ℕ) : ℕ := if n ≤ 1 then n else isqrtFuel 128 n n

/-- Python `round(x ** 0.5, k)` over exact fractions, for `x ≥ 0`:
ties-to-even rounding of `10^k * sqrt x`.  With `N = 10^k` and
`t = N^2 * x`, `⌊N * sqrt x⌋ = ⌊sqrt t⌋ = isqrt ⌊t⌋`, and the fractional
part of `N * sqrt x` is below / above / at `1/2` according as `4*t` is
below / above / at `(2*s+1)^2`. -/
def roundSqrt (x : Q) (k : ℕ) : Q :=
  let N : ℤ := 10 ^ k
  let t : Q := x * Q.ofInt (N * N)
  let s : ℤ := (isqrt t.floor.toNat : ℤ)
  let r : ℤ :=
    if (4 : Q) * t < Q.ofInt ((2 * s + 1) ^ 2) then s
    else if Q.ofInt ((2 * s + 1) ^ 2) < (4 : Q) * t then s + 1
    else if s % 2 = 0 then s else s + 1
  Q.norm r N

/-- Rational lower enclosure of `pi`, accurate to `10 ^ (-14)`. -/
def piRat : Q := Q.dec 314159265358979 14

/-- Python `round(c * pi, k)`: at its single use site (`ALPHA` of the
Inveon builder, `round(2*pi/16, 4)`) the result is insensitive to replacing
`pi` by any rational within `10 ^ (-14)` of it, so the enclosure `piRat`
is exact. -/
def roundPiMul (c : Q) (k : ℕ) : Q := pyround (c * piRat) k

/-- The dictionary keys (string keys of the Python dicts; distinct
constructors stand for distinct strings, e.g. `DEV_ID` and `DEVID`). -/
inductive K where
  | LOG | VERBOSE | ENBLXNAT | ENBLAGG | CMPL_DCM2NIIX | R02 | CLGHT
  | DIRTOOLS | CMAKE_TLS_PAR | MSVC_VRSN
  | DEVID | CCARCH | DEV_ID | CC_ARCH
  | PATHTOOLS | RESPATH | REGPATH | DCM2NIIX | HMUDIR | VINCIPATH | REFPATH
  | ISOTOPE | DCYCRR | BTP | BTPRT | BPE | LMOFF | ALPHA
  | NRNG | NCRS | NSEG0 | R | CWND | DOI
  | NSANGLES | NSBINS | NAW | NSN | NSN1 | MRD | SPN | TFOV2
  | RNG_STRT | RNG_END | R_RING | R_2 | IR_RING | NTT | NTV
  | zoom | SO_IMZ | SO_IMY | SO_IMX | SO_VXX | SO_VXY | SO_VXZ | TRGTSCT
  | SZ_IMZ | SZ_IMY | SZ_IMX | SZ_VOXY | SZ_VOXZ
  | SIGMA_RM | RSZ_PSF_KRNL | AFFINE | IMSIZE | SZ_VOXZi
  | BLKWDTH | BLKHGHT | LC2C | NTXBLK | NAXBLK | NCRSBLK | AXR
  | NCRSR | NBCKT | TGAP | OFFGAP | NSN3
  | SEG | MNRD | MXRD | HMULIST | Naw | NSN11 | NSN64
  | SS_IMZ | SS_IMY | SS_IMX | SS_VXZ | SS_VXY | IS_VXZ
  | SSE_IMZ | SSE_IMY | SSE_IMX | SSE_VXZ | SSE_VXY
  | SCTSCLEM | SCTSCLMU | SRFCRS | LLD | E511 | ER | SIRNG | NSRNG
  | NCOS | COSUPSMX | COSSTP | ICOSSTP | ETHRLD
  | TOFBINN | TOFBINS | TOFBIND | ITOFBIND
  deriving DecidableEq

def sEmptyStr : String := ""
def sDIRTOOLS : String := "NiftyPET_tools"
def sMSVC : String := "Visual Studio 12 2013 Win64"
def sF18 : String := "F18"
def sGe68 : String := "Ge68"
def sGa68 : String := "Ga68"
def sC11 : String := "C11"
def sO15 : String := "O15"

/-- A Python value stored in a configuration dictionary: int, float
(as exact fraction), bool, string, `None`, `c * pi` (symbolic, for the
crystal/block angle `ALPHA`), and small lists / a 4x4 matrix. -/
inductive Val where
  | i (z : ℤ)
  | q (x : Q)
  | b (v : Bool)
  | s (t : String)
  | pimul (c : Q)
  | null
  | ilist (l : List ℤ)
  | qlist (l : List Q)
  | slist (l : List String)
  | mat (m : List (List Q))
  deriving DecidableEq

/-- A Python dict, embedded as a lookup function on keys. -/
def CntMap : Type := K → Option Val

/-- Python `Cnt[k] = v` (dict item assignment). -/
def CntMap.set (d : CntMap) (k : K) (v : Val) : CntMap :=
  fun x => if x = k then some v else d x

/-- The empty dict. -/
def emptyCnt : CntMap := fun _ => Option.none

/-- Python `if val is not None: Cnt[k] = val` where `val = globals().get(k)`;
`Option.none` models "absent or None".  Written as a single lambda so that a
lookup at a different key reduces without inspecting `v`. -/
def setOpt (d : CntMap) (k : K) (v : Option Val) : CntMap :=
  fun x =>
    if x = k then
      match v with
      | some w => some w
      | Option.none => d x
    else d x

/-- Read a numeric entry as a fraction (Python arithmetic on dict values
mixes ints and floats freely). -/
def getQ (d : CntMap) (k : K) : Q :=
  match d k with
  | some (Val.q x) => x
  | some (Val.i z) => Q.ofInt z
  | _ => 0

/-- Read an integer entry. -/
def getI (d : CntMap) (k : K) : ℤ :=
  match d k with
  | some (Val.i z) => z
  | _ => 0

/-- Read a list-of-floats entry (e.g. `TRGTSCT`). -/
def getQL (d : CntMap) (k : K) : List Q :=
  match d k with
  | some (Val.qlist l) => l
  | _ => []

/-- Read a list-of-ints entry (e.g. `IMSIZE`). -/
def getIL (d : CntMap) (k : K) : List ℤ :=
  match d k with
  | some (Val.ilist l) => l
  | _ => []

/-- Read the 4x4 matrix entry (`AFFINE`). -/
def getMat (d : CntMap) (k : K) : List (List Q) :=
  match d k with
  | some (Val.mat m) => m
  | _ => []

/-- Entry `(i, j)` of an embedded matrix. -/
def matEntry (m : List (List Q)) (i j : ℕ) : Q :=
  (m.getD i []).getD j 0

/-- The module-level globals that `get_gpu_constants` / `get_setup` read via
`globals().get(...)`.  A field is `Option.none` when the global is absent or
bound to Python `None` (the code treats both identically). -/
structure Globals where
  DEV_ID : Option Val
  CC_ARCH : Option Val
  PATHTOOLS : Option Val
  RESPATH : Option Val
  REGPATH : Option Val
  DCM2NIIX : Option Val
  HMUDIR : Option Val
  VINCIPATH : Option Val
  REFPATH : Option Val

/-- `get_gpu_constants(Cnt)`: stores the globals `DEV_ID` / `CC_ARCH` (when
present and not `None`) under the keys with underscores removed
(`"DEVID"`, `"CCARCH"`). -/
def get_gpu_constants (g : Globals) (Cnt : CntMap) : CntMap :=
  setOpt (setOpt Cnt K.DEVID g.DEV_ID) K.CCARCH g.CC_ARCH

/-- `get_setup(Cnt)`: baseline configuration shared by all builders. -/
def get_setup (g : Globals) (Cnt : CntMap) : CntMap :=
  let c := Cnt.set K.LOG (Val.i 20)
    |>.set K.VERBOSE (Val.b false)
    |>.set K.ENBLXNAT (Val.b false)
    |>.set K.ENBLAGG (Val.b false)
    |>.set K.CMPL_DCM2NIIX (Val.b false)
    -- electron radius ** 2: 7.940787449825884e-26
    |>.set K.R02 (Val.q (Q.dec 7940787449825884 41))
    -- speed of light [cm/s] (a Python int literal)
    |>.set K.CLGHT (Val.i 29979245800)
    |>.set K.DIRTOOLS (Val.s sDIRTOOLS)
    |>.set K.CMAKE_TLS_PAR (Val.s sEmptyStr)
    |>.set K.MSVC_VRSN (Val.s sMSVC)
  let c := get_gpu_constants g c
  setOpt (setOpt (setOpt (setOpt (setOpt (setOpt (setOpt c
    K.PATHTOOLS g.PATHTOOLS)
    K.RESPATH g.RESPATH)
    K.REGPATH g.REGPATH)
    K.DCM2NIIX g.DCM2NIIX)
    K.HMUDIR g.HMUDIR)
    K.VINCIPATH g.VINCIPATH)
    K.REFPATH g.REFPATH

/-- The globals as defined in the checked-in source file: no GPU constants,
no tool paths, and `VINCIPATH = ""`, `REFPATH = ""`. -/
def srcGlobals : Globals :=
  { DEV_ID := Option.none
    CC_ARCH := Option.none
    PATHTOOLS := Option.none
    RESPATH := Option.none
    REGPATH := Option.none
    DCM2NIIX := Option.none
    HMUDIR := Option.none
    VINCIPATH := some (Val.s sEmptyStr)
    REFPATH := some (Val.s sEmptyStr) }

/-- Decay constants of one radioisotope: branching fraction and half-life
in seconds. -/
structure RiEntry where
  BF : Q
  thalf : Q
  deriving DecidableEq

/-- The radioisotope look-up table `riLUT` (a fixed dict literal). -/
def riLUT (name : String) : Option RiEntry :=
  if name = sGe68 then some ⟨Q.dec 891 3, Q.dec 2709516 4 * 24 * 60 * 60⟩
  else if name = sGa68 then some ⟨Q.dec 891 3, Q.dec 6771 2 * 60⟩
  else if name = sF18 then some ⟨Q.dec 967 3, Q.dec 10977120 5 * 60⟩
  else if name = sC11 then some ⟨Q.dec 998 3, Q.dec 2038 2 * 60⟩
  else if name = sO15 then some ⟨Q.dec 999 3, Q.dec 1222416 4⟩
  else Option.none

/-- The four hardware mu-map file names shipped with the mMR
(`hrdwr_mu_mmr`). -/
def hrdwr_mu_mmr : List String :=
  ["umap_HNMCL_10606489.v.hdr", "umap_HNMCU_10606489.v.hdr",
   "umap_SPMC_10606491.v.hdr", "umap_PT_2291734.v.hdr"]

/-- `get_sig_constants()`: the GE Signa PET/MR builder.  Python float
literals appear as `Q.dec m e = m * 10^(-e)`, e.g. `31.18 = Q.dec 3118 2`.
Where the source reads back an entry it has just stored
(`Cnt["NRNG"]`, `Cnt["R"]`, ...), the value is bound once as a `let`
variable and used both for the store and for the later reads. -/
def get_sig_constants (g : Globals) : CntMap :=
  let Cnt := get_setup g emptyCnt
  let NRNG : ℤ := 45
  let R : Q := Q.dec 3118 2
  let DOI : Q := Q.dec 85 2
  -- key constants
  let c1 := Cnt.set K.ISOTOPE (Val.s sF18)
    |>.set K.DCYCRR (Val.b true)
    |>.set K.BTP (Val.i 0)
    |>.set K.BTPRT (Val.q (Q.dec 10 1))
    |>.set K.BPE (Val.i 6)
    |>.set K.LMOFF (Val.i 0)
    -- 0.714286 * pi / 180
    |>.set K.ALPHA (Val.pimul (Q.dec 714286 6 / 180))
    |>.set K.NRNG (Val.i NRNG)
    |>.set K.NCRS (Val.i 448)
    |>.set K.NSEG0 (Val.i 89)
    |>.set K.R (Val.q R)
    -- 5859.38e-12
    |>.set K.CWND (Val.q (Q.dec 585938 14))
    |>.set K.DOI (Val.q DOI)
  -- sinogram constants
  let c2 := c1.set K.NSANGLES (Val.i 224)
    |>.set K.NSBINS (Val.i 357)
    |>.set K.NAW (Val.i (-1))
    |>.set K.NSN (Val.i 1981)
    |>.set K.NSN1 (Val.i (NRNG ^ 2))
    |>.set K.MRD (Val.i 44)
    |>.set K.SPN (Val.i 1)
    |>.set K.TFOV2 (Val.q (Q.dec 8900 1))
    |>.set K.RNG_STRT (Val.i 0)
    |>.set K.RNG_END (Val.i NRNG)
    |>.set K.R_RING (Val.q (R + DOI))
    |>.set K.R_2 (Val.q (pyround ((R + DOI) ^ 2) 6))
    |>.set K.IR_RING (Val.q (pyround ((R + DOI)⁻¹) 6))
    |>.set K.NTT (Val.i 10)
    |>.set K.NTV (Val.i 1807)
  -- image voxel constants (reference image size)
  let zoom : ℤ := 1
  let SO_IMZ : ℤ := 89 * zoom
  let SO_IMY : ℤ := 288 * zoom
  let SO_IMX : ℤ := 288 * zoom
  let SO_VXX : Q := Q.dec 208333 6 / Q.ofInt zoom
  let SO_VXY : Q := Q.dec 208333 6 / Q.ofInt zoom
  let SO_VXZ : Q := Q.dec 278000 6 / Q.ofInt zoom
  let c3 := c2.set K.zoom (Val.i zoom)
    |>.set K.SO_IMZ (Val.i SO_IMZ)
    |>.set K.SO_IMY (Val.i SO_IMY)
    |>.set K.SO_IMX (Val.i SO_IMX)
    |>.set K.SO_VXX (Val.q SO_VXX)
    |>.set K.SO_VXY (Val.q SO_VXY)
    |>.set K.SO_VXZ (Val.q SO_VXZ)
    |>.set K.TRGTSCT (Val.qlist [Q.dec 5 1, Q.dec 33 2])
  -- GPU/device image dimensions (mirror the reference grid)
  let c4 := c3.set K.SZ_IMZ (Val.i SO_IMZ)
    |>.set K.SZ_IMY (Val.i SO_IMY)
    |>.set K.SZ_IMX (Val.i SO_IMX)
    |>.set K.SZ_VOXY (Val.q SO_VXY)
    |>.set K.SZ_VOXZ (Val.q SO_VXZ)
  -- affine, image size and inverse voxel size
  c4.set K.SIGMA_RM (Val.i 0)
    |>.set K.RSZ_PSF_KRNL (Val.i 8)
    |>.set K.AFFINE (Val.mat
      [[-(10 * SO_VXX), 0, 0, Q.dec 50 1 * Q.ofInt SO_IMX * SO_VXX],
       [0, 10 * SO_VXX, 0, -(Q.dec 50 1 * Q.ofInt SO_IMY * SO_VXX)],
       [0, 0, 10 * SO_VXZ, -(Q.dec 50 1 * Q.ofInt SO_IMZ * SO_VXZ)],
       [0, 0, 0, Q.dec 10 1]])
    |>.set K.IMSIZE (Val.ilist [SO_IMZ, SO_IMY, SO_IMX])
    |>.set K.SZ_VOXZi (Val.q (pyround ((1 : Q) / SO_VXZ) 6))

/-- `get_synchropet_constants()`: the SynchroPET builder. -/
def get_synchropet_constants (g : Globals) : CntMap :=
  let Cnt := get_setup g emptyCnt
  let NRNG : ℤ := 8
  let NTXBLK : ℤ := 12
  let NCRSBLK : ℤ := 4
  let NSANGLES : ℤ := 24
  let NSBINS : ℤ := 40
  let BLKWDTH : Q := Q.dec 957 3
  let BLKHGHT : Q := Q.dec 1846 3
  let LC2C : Q := Q.dec 4669 3
  let DOI : Q := Q.dec 20 2
  -- R = round(((LC2C/2)**2 - (BLKWDTH/2)**2)**.5, 3)
  let R : Q := roundSqrt ((LC2C / 2) ^ 2 - (BLKWDTH / 2) ^ 2) 3
  let c1 := Cnt.set K.BPE (Val.i 6)
    |>.set K.BLKWDTH (Val.q BLKWDTH)
    |>.set K.BLKHGHT (Val.q BLKHGHT)
    |>.set K.LC2C (Val.q LC2C)
    |>.set K.DOI (Val.q DOI)
    |>.set K.NRNG (Val.i NRNG)
    |>.set K.NTXBLK (Val.i NTXBLK)
    |>.set K.NAXBLK (Val.i 1)
    |>.set K.NCRSBLK (Val.i NCRSBLK)
    |>.set K.NSANGLES (Val.i NSANGLES)
    |>.set K.NSBINS (Val.i NSBINS)
    |>.set K.SPN (Val.i 1)
  let c2 := c1.set K.ALPHA (Val.pimul ((2 : Q) / Q.ofInt NTXBLK))
    |>.set K.NCRS (Val.i (NTXBLK * NCRSBLK))
    |>.set K.R (Val.q R)
    |>.set K.AXR (Val.q (BLKHGHT / Q.ofInt NRNG))
    |>.set K.NSEG0 (Val.i (NRNG * 2 - 1))
    |>.set K.NSN1 (Val.i (NRNG ^ 2))
    |>.set K.RNG_STRT (Val.i 0)
    |>.set K.RNG_END (Val.i NRNG)
  let c3 := c2.set K.NAW (Val.i (NSBINS * NSANGLES))
    |>.set K.TFOV2 (Val.q (Q.dec 441 2))
    |>.set K.R_RING (Val.q (R + DOI))
    |>.set K.R_2 (Val.q (pyround ((R + DOI) ^ 2) 6))
    |>.set K.IR_RING (Val.q (pyround ((R + DOI)⁻¹) 6))
    |>.set K.NTT (Val.i 10)
    |>.set K.NTV (Val.i 1807)
  let SO_IMZ : ℤ := 15
  let SO_IMY : ℤ := 48
  let SO_IMX : ℤ := 48
  let SO_VXX : Q := Q.dec 1 1
  let SO_VXZ : Q := Q.dec 11 2
  let c4 := c3.set K.SO_IMZ (Val.i SO_IMZ)
    |>.set K.SO_IMY (Val.i SO_IMY)
    |>.set K.SO_IMX (Val.i SO_IMX)
    |>.set K.SO_VXX (Val.q SO_VXX)
    |>.set K.SO_VXY (Val.q (Q.dec 1 1))
    |>.set K.SO_VXZ (Val.q SO_VXZ)
    |>.set K.SZ_IMZ (Val.i 15)
    |>.set K.SZ_IMY (Val.i 48)
    |>.set K.SZ_IMX (Val.i 48)
    |>.set K.SZ_VOXY (Val.q (Q.dec 1 1))
    |>.set K.SZ_VOXZ (Val.q (Q.dec 11 2))
    |>.set K.TRGTSCT (Val.qlist [Q.dec 5 1, Q.dec 33 2])
  c4.set K.SIGMA_RM (Val.i 0)
    |>.set K.RSZ_PSF_KRNL (Val.i 8)
    |>.set K.AFFINE (Val.mat
      [[-(10 * SO_VXX), 0, 0, Q.dec 50 1 * Q.ofInt SO_IMX * SO_VXX],
       [0, 10 * SO_VXX, 0, -(Q.dec 50 1 * Q.ofInt SO_IMY * SO_VXX)],
       [0, 0, 10 * SO_VXZ, -(Q.dec 50 1 * Q.ofInt SO_IMZ * SO_VXZ)],
       [0, 0, 0, Q.dec 10 1]])
    |>.set K.IMSIZE (Val.ilist [SO_IMZ, SO_IMY, SO_IMX])
    |>.set K.SZ_VOXZi (Val.q (pyround ((1 : Q) / Q.dec 11 2) 6))

/-- `get_inv_constants()`: the Siemens Inveon (microPET) builder. -/
def get_inv_constants (g : Globals) : CntMap :=
  let Cnt := get_setup g emptyCnt
  let NTXBLK : ℤ := 16
  let NRNG : ℤ := 80
  let R : Q := Q.dec 8054 3
  let DOI : Q := Q.dec 458 3
  let c1 := Cnt.set K.ISOTOPE (Val.s sF18)
    |>.set K.DCYCRR (Val.b true)
    |>.set K.BTP (Val.i 0)
    |>.set K.BTPRT (Val.q (Q.dec 10 1))
    |>.set K.BPE (Val.i 6)
    |>.set K.LMOFF (Val.i 0)
    |>.set K.NTXBLK (Val.i NTXBLK)
    |>.set K.NCRSBLK (Val.i 20)
    -- 0.163 * 20
    |>.set K.BLKWDTH (Val.q (Q.dec 163 3 * 20))
    |>.set K.NRNG (Val.i NRNG)
    |>.set K.NCRS (Val.i 320)
    |>.set K.NCRSR Val.null
    |>.set K.NBCKT (Val.i 224)
    |>.set K.NSEG0 (Val.i 159)
    |>.set K.TGAP Val.null
    |>.set K.OFFGAP Val.null
    |>.set K.AXR (Val.q (Q.dec 1592 4))
    |>.set K.R (Val.q R)
    |>.set K.CWND (Val.q (Q.dec 585938 14))
    |>.set K.DOI (Val.q DOI)
  let c2 := c1.set K.ALPHA (Val.q (roundPiMul ((2 : Q) / Q.ofInt NTXBLK) 4))
    |>.set K.NSANGLES (Val.i 160)
    |>.set K.NSBINS (Val.i 128)
    |>.set K.NAW (Val.i (-1))
    |>.set K.NSN3 (Val.i 4319)
    |>.set K.NSN1 (Val.i 6400)
    |>.set K.MRD (Val.i 79)
    |>.set K.SPN (Val.i 1)
    |>.set K.TFOV2 (Val.q (Q.dec 5625 2))
    |>.set K.RNG_STRT (Val.i 0)
    |>.set K.RNG_END (Val.i NRNG)
    |>.set K.R_RING (Val.q (R + DOI))
    |>.set K.R_2 (Val.q (pyround ((R + DOI) ^ 2) 6))
    |>.set K.IR_RING (Val.q (pyround ((R + DOI)⁻¹) 6))
    |>.set K.NTT (Val.i 10)
    |>.set K.NTV (Val.i 1807)
  let zoom : ℤ := 1
  let SO_IMZ : ℤ := 159 * zoom
  let SO_IMY : ℤ := 224 * zoom
  let SO_IMX : ℤ := 224 * zoom
  let SO_VXX : Q := Q.dec 765 4 / Q.ofInt zoom
  let SO_VXY : Q := Q.dec 765 4 / Q.ofInt zoom
  let SO_VXZ : Q := Q.dec 796 4 / Q.ofInt zoom
  let c3 := c2.set K.zoom (Val.i zoom)
    |>.set K.SO_IMZ (Val.i SO_IMZ)
    |>.set K.SO_IMY (Val.i SO_IMY)
    |>.set K.SO_IMX (Val.i SO_IMX)
    |>.set K.SO_VXX (Val.q SO_VXX)
    |>.set K.SO_VXY (Val.q SO_VXY)
    |>.set K.SO_VXZ (Val.q SO_VXZ)
    |>.set K.TRGTSCT (Val.qlist [Q.dec 5 1, Q.dec 33 2])
  let c4 := c3.set K.SZ_IMZ (Val.i SO_IMZ)
    |>.set K.SZ_IMY (Val.i SO_IMY)
    |>.set K.SZ_IMX (Val.i SO_IMX)
    |>.set K.SZ_VOXY (Val.q SO_VXY)
    |>.set K.SZ_VOXZ (Val.q SO_VXZ)
  c4.set K.SIGMA_RM (Val.i 0)
    |>.set K.RSZ_PSF_KRNL (Val.i 8)
    |>.set K.AFFINE (Val.mat
      [[-(10 * SO_VXX), 0, 0, Q.dec 50 1 * Q.ofInt SO_IMX * SO_VXX],
       [0, 10 * SO_VXX, 0, -(Q.dec 50 1 * Q.ofInt SO_IMY * SO_VXX)],
       [0, 0, 10 * SO_VXZ, -(Q.dec 50 1 * Q.ofInt SO_IMZ * SO_VXZ)],
       [0, 0, 0, Q.dec 10 1]])
    |>.set K.IMSIZE (Val.ilist [SO_IMZ, SO_IMY, SO_IMX])
    |>.set K.SZ_VOXZi (Val.q (pyround ((1 : Q) / SO_VXZ) 6))

/-- `get_mmr_constants()`: the Siemens mMR builder (the most complete
variant, with scatter and time-of-flight constants). -/
def get_mmr_constants (g : Globals) : CntMap :=
  let Cnt := get_setup g emptyCnt
  let NRNG : ℤ := 64
  let R : Q := Q.dec 328 1
  let DOI : Q := Q.dec 67 2
  -- Cnt["CLGHT"], stored by get_setup
  let CLGHT : ℤ := 29979245800
  let c1 := Cnt.set K.ISOTOPE (Val.s sF18)
    |>.set K.DCYCRR (Val.b true)
    |>.set K.BTP (Val.i 0)
    |>.set K.BTPRT (Val.q (Q.dec 10 1))
    |>.set K.BPE (Val.i 4)
    |>.set K.LMOFF (Val.i 0)
    -- 0.714286 * pi / 180
    |>.set K.ALPHA (Val.pimul (Q.dec 714286 6 / 180))
    |>.set K.NRNG (Val.i NRNG)
    |>.set K.NCRS (Val.i 504)
    |>.set K.NCRSR (Val.i 448)
    |>.set K.NBCKT (Val.i 224)
    |>.set K.NSEG0 (Val.i 127)
    |>.set K.TGAP (Val.i 9)
    |>.set K.OFFGAP (Val.i 1)
    |>.set K.AXR (Val.q (Q.dec 40625 5))
    |>.set K.R (Val.q R)
    |>.set K.CWND (Val.q (Q.dec 585938 14))
    |>.set K.DOI (Val.q DOI)
    |>.set K.SEG (Val.ilist [127, 115, 115, 93, 93, 71, 71, 49, 49, 27, 27])
    |>.set K.MNRD (Val.ilist [-5, -16, 6, -27, 17, -38, 28, -49, 39, -60, 50])
    |>.set K.MXRD (Val.ilist [5, -6, 16, -17, 27, -28, 38, -39, 49, -50, 60])
    |>.set K.HMULIST (Val.slist hrdwr_mu_mmr)
  let c2 := c1.set K.NSANGLES (Val.i 252)
    |>.set K.NSBINS (Val.i 344)
    |>.set K.Naw (Val.i (-1))
    |>.set K.NSN11 (Val.i 837)
    |>.set K.NSN1 (Val.i 4084)
    |>.set K.NSN64 (Val.i (NRNG ^ 2))
    |>.set K.MRD (Val.i 60)
    |>.set K.SPN (Val.i 11)
    |>.set K.TFOV2 (Val.q (Q.dec 8900 1))
    |>.set K.RNG_STRT (Val.i 0)
    |>.set K.RNG_END (Val.i NRNG)
    |>.set K.R_RING (Val.q (R + DOI))
    |>.set K.R_2 (Val.q (pyround ((R + DOI) ^ 2) 6))
    |>.set K.IR_RING (Val.q (pyround ((R + DOI)⁻¹) 6))
    |>.set K.NTT (Val.i 10)
    |>.set K.NTV (Val.i 1807)
  let SO_IMZ : ℤ := 127
  let SO_IMY : ℤ := 344
  let SO_IMX : ℤ := 344
  let SO_VXX : Q := Q.dec 208626 6
  let SO_VXY : Q := Q.dec 208626 6
  let SO_VXZ : Q := Q.dec 203125 6
  let SZ_VOXZ : Q := Q.dec 203125 6
  let c3 := c2.set K.SO_IMZ (Val.i SO_IMZ)
    |>.set K.SO_IMY (Val.i SO_IMY)
    |>.set K.SO_IMX (Val.i SO_IMX)
    |>.set K.SO_VXX (Val.q SO_VXX)
    |>.set K.SO_VXY (Val.q SO_VXY)
    |>.set K.SO_VXZ (Val.q SO_VXZ)
    |>.set K.SZ_IMZ (Val.i 127)
    |>.set K.SZ_IMY (Val.i 320)
    |>.set K.SZ_IMX (Val.i 320)
    |>.set K.SZ_VOXY (Val.q (Q.dec 208626 6))
    |>.set K.SZ_VOXZ (Val.q SZ_VOXZ)
    |>.set K.TRGTSCT (Val.qlist [Q.dec 5 1, Q.dec 33 2])
  let c4 := c3.set K.SIGMA_RM (Val.i 0)
    |>.set K.RSZ_PSF_KRNL (Val.i 8)
    |>.set K.AFFINE (Val.mat
      [[-(10 * SO_VXX), 0, 0, Q.dec 50 1 * Q.ofInt SO_IMX * SO_VXX],
       [0, 10 * SO_VXX, 0, -(Q.dec 50 1 * Q.ofInt SO_IMY * SO_VXX)],
       [0, 0, 10 * SO_VXZ, -(Q.dec 50 1 * Q.ofInt SO_IMZ * SO_VXZ)],
       [0, 0, 0, Q.dec 10 1]])
    |>.set K.IMSIZE (Val.ilist [SO_IMZ, SO_IMY, SO_IMX])
    |>.set K.SZ_VOXZi (Val.q (pyround ((1 : Q) / SZ_VOXZ) 6))
  -- scatter constants
  let NCOS : ℤ := 256
  let COSUPSMX : Q := Q.dec 725 3
  let sct_irng : List ℤ := [0, 10, 19, 28, 35, 44, 53, 63]
  -- Cnt["TRGTSCT"][0] and Cnt["TRGTSCT"][1]
  let TRGTSCT0 : Q := Q.dec 5 1
  let TRGTSCT1 : Q := Q.dec 33 2
  -- SS_IM* = int(ceil(TRGTSCT[0] * SO_IM*) // 2 * 2), Z decremented by 1
  let SS_IMX : ℤ := Int.fdiv (Q.ceil (TRGTSCT0 * Q.ofInt SO_IMX)) 2 * 2
  let SS_IMY : ℤ := Int.fdiv (Q.ceil (TRGTSCT0 * Q.ofInt SO_IMY)) 2 * 2
  let SS_IMZ : ℤ := Int.fdiv (Q.ceil (TRGTSCT0 * Q.ofInt SO_IMZ)) 2 * 2 - 1
  let SS_VXY : Q := pyround (SO_VXY * Q.ofInt SO_IMX / Q.ofInt SS_IMX) 6
  let SS_VXZ : Q := pyround (SO_VXZ * Q.ofInt SO_IMZ / Q.ofInt SS_IMZ) 6
  let IS_VXZ : Q := pyround ((1 : Q) / SS_VXZ) 6
  -- SSE_IM* = int(ceil(TRGTSCT[1] * SO_IM*) // 2 * 2), Z incremented by 1
  let SSE_IMX : ℤ := Int.fdiv (Q.ceil (TRGTSCT1 * Q.ofInt SO_IMX)) 2 * 2
  let SSE_IMY : ℤ := Int.fdiv (Q.ceil (TRGTSCT1 * Q.ofInt SO_IMY)) 2 * 2
  let SSE_IMZ : ℤ := Int.fdiv (Q.ceil (TRGTSCT1 * Q.ofInt SO_IMZ)) 2 * 2 + 1
  let SSE_VXY : Q := pyround (SO_VXY * Q.ofInt SO_IMX / Q.ofInt SSE_IMX) 6
  let SSE_VXZ : Q := pyround (SO_VXZ * Q.ofInt SO_IMZ / Q.ofInt SSE_IMZ) 6
  let c5 := c4.set K.SS_IMZ (Val.i SS_IMZ)
    |>.set K.SS_IMY (Val.i SS_IMY)
    |>.set K.SS_IMX (Val.i SS_IMX)
    |>.set K.SS_VXZ (Val.q SS_VXZ)
    |>.set K.SS_VXY (Val.q SS_VXY)
    |>.set K.IS_VXZ (Val.q IS_VXZ)
    |>.set K.SSE_IMZ (Val.i SSE_IMZ)
    |>.set K.SSE_IMY (Val.i SSE_IMY)
    |>.set K.SSE_IMX (Val.i SSE_IMX)
    |>.set K.SSE_VXZ (Val.q SSE_VXZ)
    |>.set K.SSE_VXY (Val.q SSE_VXY)
    |>.set K.SCTSCLEM (Val.qlist
      [Q.ofInt SSE_IMZ / Q.ofInt SO_IMZ,
       Q.ofInt SSE_IMY / Q.ofInt SO_IMY,
       Q.ofInt SSE_IMX / Q.ofInt SO_IMX])
    |>.set K.SCTSCLMU (Val.qlist
      [Q.ofInt SS_IMZ / Q.ofInt SO_IMZ,
       Q.ofInt SS_IMY / Q.ofInt SO_IMY,
       Q.ofInt SS_IMX / Q.ofInt SO_IMX])
    |>.set K.SRFCRS (Val.q (Q.dec 1695112 7))
    |>.set K.LLD (Val.i 430000)
    |>.set K.E511 (Val.i 511008)
    |>.set K.ER (Val.q (Q.dec 0 1))
    |>.set K.SIRNG (Val.ilist sct_irng)
    |>.set K.NSRNG (Val.i (sct_irng.length : ℤ))
    |>.set K.NCOS (Val.i NCOS)
    |>.set K.COSUPSMX (Val.q COSUPSMX)
    |>.set K.COSSTP (Val.q ((1 - COSUPSMX) / (Q.ofInt NCOS - 1)))
    |>.set K.ICOSSTP (Val.q ((Q.ofInt NCOS - 1) / (1 - COSUPSMX)))
    |>.set K.ETHRLD (Val.q (Q.dec 5 2))
  -- time of flight: TOFBINS = 390e-12 [ps]
  let TOFBINS : Q := Q.dec 390 12
  c5.set K.TOFBINN (Val.i 1)
    |>.set K.TOFBINS (Val.q TOFBINS)
    |>.set K.TOFBIND (Val.q (TOFBINS * Q.ofInt CLGHT))
    |>.set K.ITOFBIND (Val.q ((1 : Q) / (TOFBINS * Q.ofInt CLGHT)))

/-- Ring-radius consistency of one configuration record:
`R_RING == R + DOI` and `IR_RING == round(1/(R+DOI), 6)`. -/
def ringSpec (c : CntMap) : Prop :=
  getQ c K.R_RING = getQ c K.R + getQ c K.DOI ∧
  getQ c K.IR_RING = pyround ((1 : Q) / (getQ c K.R + getQ c K.DOI)) 6

/-- Affine/`IMSIZE` layout of one configuration record:
`IMSIZE = [SO_IMZ, SO_IMY, SO_IMX]`, diagonal `(-10*SO_VXX, 10*SO_VXY,
10*SO_VXZ)`, translations `5*dim*voxel` with the Y AND Z entries negated. -/
def affineSpec (c : CntMap) : Prop :=
  getIL c K.IMSIZE = [getI c K.SO_IMZ, getI c K.SO_IMY, getI c K.SO_IMX] ∧
  matEntry (getMat c K.AFFINE) 0 0 = -(10 * getQ c K.SO_VXX) ∧
  matEntry (getMat c K.AFFINE) 1 1 = 10 * getQ c K.SO_VXY ∧
  matEntry (getMat c K.AFFINE) 2 2 = 10 * getQ c K.SO_VXZ ∧
  matEntry (getMat c K.AFFINE) 0 3 =
    5 * Q.ofInt (getI c K.SO_IMX) * getQ c K.SO_VXX ∧
  matEntry (getMat c K.AFFINE) 1 3 =
    -(5 * Q.ofInt (getI c K.SO_IMY) * getQ c K.SO_VXY) ∧
  matEntry (getMat c K.AFFINE) 2 3 =
    -(5 * Q.ofInt (getI c K.SO_IMZ) * getQ c K.SO_VXZ)

/-- A fraction representable with at most 6 decimal places (equivalently,
fixed by 6-decimal rounding). -/
def sixDecimals (x : Q) : Prop := pyround x 6 = x

instance (x : Q) : Decidable (sixDecimals x) :=
  inferInstanceAs (Decidable (pyround x 6 = x))

/-- The "target-scaled even count": the scale factor applied to the image
dimension, ceiled, then floor-divided by two and doubled
(`int(ceil(t * d) // 2 * 2)`). -/
def evenized (t : Q) (d : ℤ) : ℤ := Int.fdiv (Q.ceil (t * Q.ofInt d)) 2 * 2

/-- The keys `get_gpu_constants` itself writes. -/
def gpuKeys : List K := [K.DEVID, K.CCARCH]

/-- The keys `get_setup` itself writes (directly or via
`get_gpu_constants`). -/
def setupKeys : List K :=
  [K.LOG, K.VERBOSE, K.ENBLXNAT, K.ENBLAGG, K.CMPL_DCM2NIIX, K.R02,
   K.CLGHT, K.DIRTOOLS, K.CMAKE_TLS_PAR, K.MSVC_VRSN, K.DEVID, K.CCARCH,
   K.PATHTOOLS, K.RESPATH, K.REGPATH, K.DCM2NIIX, K.HMUDIR, K.VINCIPATH,
   K.REFPATH]

/-- Globals with no GPU device and no tool paths at all. -/
def noneGlobals : Globals :=
  { DEV_ID := Option.none
    CC_ARCH := Option.none
    PATHTOOLS := Option.none
    RESPATH := Option.none
    REGPATH := Option.none
    DCM2NIIX := Option.none
    HMUDIR := Option.none
    VINCIPATH := Option.none
    REFPATH := Option.none }

def sArch : String := "compute_35"

/-- Globals of a machine where device discovery found a GPU. -/
def gpuGlobals : Globals :=
  { DEV_ID := some (Val.i 0)
    CC_ARCH := some (Val.s sArch)
    PATHTOOLS := Option.none
    RESPATH := Option.none
    REGPATH := Option.none
    DCM2NIIX := Option.none
    HMUDIR := Option.none
    VINCIPATH := Option.none
    REFPATH := Option.none }

def sNa22 : String := "Na22"

/-- A caller-provided record holding one key that neither
`get_gpu_constants` nor `get_setup` writes. -/
def dUser : CntMap := CntMap.set emptyCnt K.TGAP (Val.i 7)

/-- The mMR scatter-grid properties of claim C5, stated over the
entries of the record: `COSSTP == (1 - 0.725)/255 == (1 - COSUPSMX)/(NCOS - 1)`; the
scatter mu-map Z dimension is the target-scaled even count minus one (63,
odd); the scatter emission Z dimension is the target-scaled even count plus
one (43, odd); with `SO_IMZ = 127`, `SO_IMX = SO_IMY = 344` and
`TRGTSCT = [0.5, 0.33]`. -/
def mmrScatterSpec (c : CntMap) : Prop :=
  getI c K.SO_IMZ = 127 ∧ getI c K.SO_IMX = 344 ∧ getI c K.SO_IMY = 344 ∧
  getQL c K.TRGTSCT = [Q.dec 5 1, Q.dec 33 2] ∧
  getQ c K.COSSTP = (1 - Q.dec 725 3) / 255 ∧
  getQ c K.COSSTP = (1 - getQ c K.COSUPSMX) / (Q.ofInt (getI c K.NCOS) - 1) ∧
  getI c K.SS_IMZ = evenized ((getQL c K.TRGTSCT).getD 0 0) (getI c K.SO_IMZ) - 1 ∧
  getI c K.SS_IMZ = 63 ∧ getI c K.SS_IMZ % 2 = 1 ∧
  getI c K.SSE_IMZ = evenized ((getQL c K.TRGTSCT).getD 1 0) (getI c K.SO_IMZ) + 1 ∧
  getI c K.SSE_IMZ = 43 ∧ getI c K.SSE_IMZ % 2 = 1

/-- The mMR time-of-flight properties of claim C6: `TOFBIND == 390e-12 *
CLGHT` with `CLGHT = 29979245800` cm/s, `ITOFBIND == 1/TOFBIND`, and
`TOFBIND * ITOFBIND == 1`. -/
def mmrTofSpec (c : CntMap) : Prop :=
  getQ c K.TOFBIND = Q.dec 390 12 * getQ c K.CLGHT ∧
  getQ c K.CLGHT = Q.ofInt 29979245800 ∧
  getQ c K.ITOFBIND = (1 : Q) / getQ c K.TOFBIND ∧
  getQ c K.TOFBIND * getQ c K.ITOFBIND = 1

-- Helper lemmas about the dictionary operations.

theorem set_at_diff (d : CntMap) (k' : K) (v : Val) (k : K) (h : k ≠ k') :
    CntMap.set d k' v k = d k := by
  simp [CntMap.set, h]

theorem setOpt_at_diff (d : CntMap) (k' : K) (v : Option Val) (k : K)
    (h : k ≠ k') : setOpt d k' v k = d k := by
  simp [setOpt, h]

theorem set_pres (d : CntMap) (k' : K) (v : Val) (k : K)
    (h : d k ≠ Option.none) : CntMap.set d k' v k ≠ Option.none := by
  unfold CntMap.set
  by_cases hk : k = k' <;> simp [hk, h]

theorem setOpt_pres (d : CntMap) (k' : K) (v : Option Val) (k : K)
    (h : d k ≠ Option.none) : setOpt d k' v k ≠ Option.none := by
  unfold setOpt
  by_cases hk : k = k'
  · cases v with
    | some w => simp [hk]
    | none => subst hk; simp [h]
  · simp [hk, h]

/-- C1: for every scanner builder (`get_mmr_constants`, `get_sig_constants`,
`get_inv_constants`, `get_synchropet_constants`), the returned record
satisfies `R_RING == R + DOI` exactly, and `IR_RING == round(1/(R+DOI), 6)`
(6 decimal places). -/
theorem ring_radius_consistency (g : Globals) :
    ringSpec (get_mmr_constants g) ∧ ringSpec (get_sig_constants g) ∧
    ringSpec (get_inv_constants g) ∧ ringSpec (get_synchropet_constants g) := by
  have m1 : getQ (get_mmr_constants g) K.R_RING = Q.dec 3347 2 := rfl
  have m2 : getQ (get_mmr_constants g) K.R = Q.dec 328 1 := rfl
  have m3 : getQ (get_mmr_constants g) K.DOI = Q.dec 67 2 := rfl
  have m4 : getQ (get_mmr_constants g) K.IR_RING = Q.dec 29878 6 := rfl
  have s1 : getQ (get_sig_constants g) K.R_RING = Q.dec 3203 2 := rfl
  have s2 : getQ (get_sig_constants g) K.R = Q.dec 3118 2 := rfl
  have s3 : getQ (get_sig_constants g) K.DOI = Q.dec 85 2 := rfl
  have s4 : getQ (get_sig_constants g) K.IR_RING = Q.dec 31221 6 := rfl
  have i1 : getQ (get_inv_constants g) K.R_RING = Q.dec 8512 3 := rfl
  have i2 : getQ (get_inv_constants g) K.R = Q.dec 8054 3 := rfl
  have i3 : getQ (get_inv_constants g) K.DOI = Q.dec 458 3 := rfl
  have i4 : getQ (get_inv_constants g) K.IR_RING = Q.dec 117481 6 := rfl
  have p1 : getQ (get_synchropet_constants g) K.R_RING = Q.dec 2485 3 := rfl
  have p2 : getQ (get_synchropet_constants g) K.R = Q.dec 2285 3 := rfl
  have p3 : getQ (get_synchropet_constants g) K.DOI = Q.dec 20 2 := rfl
  have p4 : getQ (get_synchropet_constants g) K.IR_RING = Q.dec 402414 6 := rfl
  unfold ringSpec
  rw [m1, m2, m3, m4, s1, s2, s3, s4, i1, i2, i3, i4, p1, p2, p3, p4]
  decide

/-- C2 counterexample: in the Signa record the Z-axis translation entry of
`AFFINE` is `-5 * SO_IMZ * SO_VXZ`, not the positive `5 * SO_IMZ * SO_VXZ`
the claim requires when only the Y translation is negated. -/
theorem affine_translation_counterexample :
    ¬ (matEntry (getMat (get_sig_constants srcGlobals) K.AFFINE) 2 3 =
        5 * Q.ofInt (getI (get_sig_constants srcGlobals) K.SO_IMZ) *
          getQ (get_sig_constants srcGlobals) K.SO_VXZ) := by decide

/-- C2 (amended): for every scanner builder, `IMSIZE == [SO_IMZ, SO_IMY,
SO_IMX]` exactly, and `AFFINE` has diagonal `(-10*SO_VXX, 10*SO_VXY,
10*SO_VXZ)` (plus-or-minus 10x the voxel sizes, in mm) with translation entries
`5 * dim * voxel` where the Y AND Z axis translations are negated (X is
positive). -/
theorem affine_image_layout (g : Globals) :
    affineSpec (get_mmr_constants g) ∧ affineSpec (get_sig_constants g) ∧
    affineSpec (get_inv_constants g) ∧ affineSpec (get_synchropet_constants g) := by
  have mA : getMat (get_mmr_constants g) K.AFFINE =
      [[Q.dec (-208626) 5, 0, 0, Q.dec 35883672 5],
       [0, Q.dec 208626 5, 0, Q.dec (-35883672) 5],
       [0, 0, Q.dec 203125 5, Q.dec (-128984375) 6],
       [0, 0, 0, 1]] := rfl
  have mI : getIL (get_mmr_constants g) K.IMSIZE = [127, 344, 344] := rfl
  have mz : getI (get_mmr_constants g) K.SO_IMZ = 127 := rfl
  have my : getI (get_mmr_constants g) K.SO_IMY = 344 := rfl
  have mx : getI (get_mmr_constants g) K.SO_IMX = 344 := rfl
  have mvx : getQ (get_mmr_constants g) K.SO_VXX = Q.dec 208626 6 := rfl
  have mvy : getQ (get_mmr_constants g) K.SO_VXY = Q.dec 208626 6 := rfl
  have mvz : getQ (get_mmr_constants g) K.SO_VXZ = Q.dec 203125 6 := rfl
  have sA : getMat (get_sig_constants g) K.AFFINE =
      [[Q.dec (-208333) 5, 0, 0, Q.dec 29999952 5],
       [0, Q.dec 208333 5, 0, Q.dec (-29999952) 5],
       [0, 0, Q.dec 278 2, Q.dec (-12371) 2],
       [0, 0, 0, 1]] := rfl
  have sI : getIL (get_sig_constants g) K.IMSIZE = [89, 288, 288] := rfl
  have sz : getI (get_sig_constants g) K.SO_IMZ = 89 := rfl
  have sy : getI (get_sig_constants g) K.SO_IMY = 288 := rfl
  have sx : getI (get_sig_constants g) K.SO_IMX = 288 := rfl
  have svx : getQ (get_sig_constants g) K.SO_VXX = Q.dec 208333 6 := rfl
  have svy : getQ (get_sig_constants g) K.SO_VXY = Q.dec 208333 6 := rfl
  have svz : getQ (get_sig_constants g) K.SO_VXZ = Q.dec 278 3 := rfl
  have iA : getMat (get_inv_constants g) K.AFFINE =
      [[Q.dec (-765) 3, 0, 0, Q.dec 8568 2],
       [0, Q.dec 765 3, 0, Q.dec (-8568) 2],
       [0, 0, Q.dec 796 3, Q.dec (-63282) 3],
       [0, 0, 0, 1]] := rfl
  have iI : getIL (get_inv_constants g) K.IMSIZE = [159, 224, 224] := rfl
  have iz : getI (get_inv_constants g) K.SO_IMZ = 159 := rfl
  have iy : getI (get_inv_constants g) K.SO_IMY = 224 := rfl
  have ix : getI (get_inv_constants g) K.SO_IMX = 224 := rfl
  have ivx : getQ (get_inv_constants g) K.SO_VXX = Q.dec 765 4 := rfl
  have ivy : getQ (get_inv_constants g) K.SO_VXY = Q.dec 765 4 := rfl
  have ivz : getQ (get_inv_constants g) K.SO_VXZ = Q.dec 796 4 := rfl
  have pA : getMat (get_synchropet_constants g) K.AFFINE =
      [[Q.dec (-10) 1, 0, 0, 24],
       [0, Q.dec 10 1, 0, Q.dec (-24) 0],
       [0, 0, Q.dec 11 1, Q.dec (-825) 2],
       [0, 0, 0, 1]] := rfl
  have pI : getIL (get_synchropet_constants g) K.IMSIZE = [15, 48, 48] := rfl
  have pz : getI (get_synchropet_constants g) K.SO_IMZ = 15 := rfl
  have py : getI (get_synchropet_constants g) K.SO_IMY = 48 := rfl
  have px : getI (get_synchropet_constants g) K.SO_IMX = 48 := rfl
  have pvx : getQ (get_synchropet_constants g) K.SO_VXX = Q.dec 1 1 := rfl
  have pvy : getQ (get_synchropet_constants g) K.SO_VXY = Q.dec 1 1 := rfl
  have pvz : getQ (get_synchropet_constants g) K.SO_VXZ = Q.dec 11 2 := rfl
  unfold affineSpec
  rw [mA, mI, mz, my, mx, mvx, mvy, mvz, sA, sI, sz, sy, sx, svx, svy, svz,
    iA, iI, iz, iy, ix, ivx, ivy, ivz, pA, pI, pz, py, px, pvx, pvy, pvz]
  decide

/-- C3: the record field holding the number of span-1 sinograms with no
maximum-ring-difference limit equals `NRNG ** 2`: `NSN1` for the Signa
(45^2), SynchroPET (8^2) and Inveon (80^2) builders, and `NSN64` for the
mMR builder (`NSN64 == NRNG ** 2 == 4096` with `NRNG = 64`). -/
theorem span1_sinogram_counts (g : Globals) :
    (getI (get_sig_constants g) K.NSN1 = getI (get_sig_constants g) K.NRNG ^ 2 ∧
      getI (get_sig_constants g) K.NRNG = 45) ∧
    (getI (get_synchropet_constants g) K.NSN1 =
        getI (get_synchropet_constants g) K.NRNG ^ 2 ∧
      getI (get_synchropet_constants g) K.NRNG = 8) ∧
    (getI (get_inv_constants g) K.NSN1 = getI (get_inv_constants g) K.NRNG ^ 2 ∧
      getI (get_inv_constants g) K.NRNG = 80) ∧
    (getI (get_mmr_constants g) K.NSN64 = getI (get_mmr_constants g) K.NRNG ^ 2 ∧
      getI (get_mmr_constants g) K.NRNG = 64 ∧
      getI (get_mmr_constants g) K.NSN64 = 4096) := by
  have s1 : getI (get_sig_constants g) K.NSN1 = 2025 := rfl
  have s2 : getI (get_sig_constants g) K.NRNG = 45 := rfl
  have p1 : getI (get_synchropet_constants g) K.NSN1 = 64 := rfl
  have p2 : getI (get_synchropet_constants g) K.NRNG = 8 := rfl
  have i1 : getI (get_inv_constants g) K.NSN1 = 6400 := rfl
  have i2 : getI (get_inv_constants g) K.NRNG = 80 := rfl
  have m1 : getI (get_mmr_constants g) K.NSN64 = 4096 := rfl
  have m2 : getI (get_mmr_constants g) K.NRNG = 64 := rfl
  rw [s1, s2, p1, p2, i1, i2, m1, m2]
  decide

/-- C4 counterexample: the mMR `COSSTP` entry, `(1 - 0.725)/255 =
11/10200`, is stored unrounded and has no 6-decimal representation, so not
every derived floating-point field is rounded to 6 decimal places. -/
theorem cosstp_unrounded_counterexample :
    ¬ sixDecimals (getQ (get_mmr_constants srcGlobals) K.COSSTP) := by decide

/-- C4 (amended): in the mMR record the fields `IR_RING`, `R_2`, `SS_VXY`,
`SS_VXZ`, `IS_VXZ`, `SSE_VXY`, `SSE_VXZ` and `SZ_VOXZi` carry at most 6
decimal places (they are stored 6-decimal-rounded), but `COSSTP`,
`ICOSSTP`, `TOFBIND`, `ITOFBIND` and the Z entries of `SCTSCLEM` /
`SCTSCLMU` are stored unrounded and carry more than 6 decimal places. -/
theorem six_decimal_fields (g : Globals) :
    sixDecimals (getQ (get_mmr_constants g) K.IR_RING) ∧
    sixDecimals (getQ (get_mmr_constants g) K.R_2) ∧
    sixDecimals (getQ (get_mmr_constants g) K.SS_VXY) ∧
    sixDecimals (getQ (get_mmr_constants g) K.SS_VXZ) ∧
    sixDecimals (getQ (get_mmr_constants g) K.IS_VXZ) ∧
    sixDecimals (getQ (get_mmr_constants g) K.SSE_VXY) ∧
    sixDecimals (getQ (get_mmr_constants g) K.SSE_VXZ) ∧
    sixDecimals (getQ (get_mmr_constants g) K.SZ_VOXZi) ∧
    ¬ sixDecimals (getQ (get_mmr_constants g) K.COSSTP) ∧
    ¬ sixDecimals (getQ (get_mmr_constants g) K.ICOSSTP) ∧
    ¬ sixDecimals (getQ (get_mmr_constants g) K.TOFBIND) ∧
    ¬ sixDecimals (getQ (get_mmr_constants g) K.ITOFBIND) ∧
    ¬ sixDecimals ((getQL (get_mmr_constants g) K.SCTSCLEM).getD 0 0) ∧
    ¬ sixDecimals ((getQL (get_mmr_constants g) K.SCTSCLMU).getD 0 0) := by
  have h1 : getQ (get_mmr_constants g) K.IR_RING = Q.dec 29878 6 := rfl
  have h2 : getQ (get_mmr_constants g) K.R_2 = Q.dec 11202409 4 := rfl
  have h3 : getQ (get_mmr_constants g) K.SS_VXY = Q.dec 417252 6 := rfl
  have h4 : getQ (get_mmr_constants g) K.SS_VXZ = Q.dec 409474 6 := rfl
  have h5 : getQ (get_mmr_constants g) K.IS_VXZ = Q.dec 2442157 6 := rfl
  have h6 : getQ (get_mmr_constants g) K.SSE_VXY = Q.dec 629538 6 := rfl
  have h7 : getQ (get_mmr_constants g) K.SSE_VXZ = Q.dec 599927 6 := rfl
  have h8 : getQ (get_mmr_constants g) K.SZ_VOXZi = Q.dec 4923077 6 := rfl
  have h9 : getQ (get_mmr_constants g) K.COSSTP = Q.norm 11 10200 := rfl
  have h10 : getQ (get_mmr_constants g) K.ICOSSTP = Q.norm 10200 11 := rfl
  have h11 : getQ (get_mmr_constants g) K.TOFBIND = Q.dec 11691905862 9 := rfl
  have h12 : getQ (get_mmr_constants g) K.ITOFBIND =
      Q.norm 500000000 5845952931 := rfl
  have h13 : getQL (get_mmr_constants g) K.SCTSCLEM =
      [Q.norm 43 127, Q.norm 114 344, Q.norm 114 344] := rfl
  have h14 : getQL (get_mmr_constants g) K.SCTSCLMU =
      [Q.norm 63 127, Q.norm 172 344, Q.norm 172 344] := rfl
  unfold sixDecimals
  rw [h1, h2, h3, h4, h5, h6, h7, h8, h9, h10, h11, h12, h13, h14]
  decide

/-- C5: in the mMR record, `COSSTP == (1 - 0.725)/255 ==
(1 - COSUPSMX)/(NCOS - 1)`; the scatter mu-map Z dimension `SS_IMZ` is odd
and equals the target-scaled even count minus one (63); the scatter
emission Z dimension `SSE_IMZ` is odd and equals the target-scaled even
count plus one (43); the even counts are obtained by ceiling the scaled
dimension then floor-dividing by two and doubling (`evenized`); with
`SO_IMZ = 127`, `SO_IMX = SO_IMY = 344`, `TRGTSCT = [0.5, 0.33]`. -/
theorem mmr_scatter_dims (g : Globals) : mmrScatterSpec (get_mmr_constants g) := by
  have h1 : getI (get_mmr_constants g) K.SO_IMZ = 127 := rfl
  have h2 : getI (get_mmr_constants g) K.SO_IMX = 344 := rfl
  have h3 : getI (get_mmr_constants g) K.SO_IMY = 344 := rfl
  have h4 : getQL (get_mmr_constants g) K.TRGTSCT = [Q.dec 5 1, Q.dec 33 2] := rfl
  have h5 : getQ (get_mmr_constants g) K.COSSTP = Q.norm 11 10200 := rfl
  have h6 : getQ (get_mmr_constants g) K.COSUPSMX = Q.dec 725 3 := rfl
  have h7 : getI (get_mmr_constants g) K.NCOS = 256 := rfl
  have h8 : getI (get_mmr_constants g) K.SS_IMZ = 63 := rfl
  have h9 : getI (get_mmr_constants g) K.SSE_IMZ = 43 := rfl
  unfold mmrScatterSpec
  rw [h1, h2, h3, h4, h5, h6, h7, h8, h9]
  decide

/-- C6: in the mMR record, `TOFBIND == 390e-12 * CLGHT` (with
`CLGHT = 29979245800` cm/s) and `ITOFBIND == 1/TOFBIND`, so that
`TOFBIND * ITOFBIND == 1`. -/
theorem mmr_tof_binding (g : Globals) : mmrTofSpec (get_mmr_constants g) := by
  have h1 : getQ (get_mmr_constants g) K.TOFBIND = Q.dec 11691905862 9 := rfl
  have h2 : getQ (get_mmr_constants g) K.CLGHT = Q.ofInt 29979245800 := rfl
  have h3 : getQ (get_mmr_constants g) K.ITOFBIND =
      Q.norm 500000000 5845952931 := rfl
  unfold mmrTofSpec
  rw [h1, h2, h3]
  decide

/-- C7: isotope lookup on `riLUT` returns, for the name `"F18"`, branching
fraction `0.967` and half-life `109.7712 * 60` seconds; for every name
other than `Ge68`, `Ga68`, `F18`, `C11`, `O15` the lookup fails and
returns no value (the record absence the spec calls `UnknownIsotope`). -/
theorem isotope_lookup (n : String)
    (h : n ≠ sGe68 ∧ n ≠ sGa68 ∧ n ≠ sF18 ∧ n ≠ sC11 ∧ n ≠ sO15) :
    riLUT sF18 = some ⟨Q.dec 967 3, Q.dec 10977120 5 * 60⟩ ∧
    riLUT n = Option.none := by
  obtain ⟨h1, h2, h3, h4, h5⟩ := h
  refine ⟨by decide, ?_⟩
  unfold riLUT
  rw [if_neg h1, if_neg h2, if_neg h3, if_neg h4, if_neg h5]

/-- C7 witness: the lookup facts at the concrete unlisted name `"Na22"`. -/
theorem isotope_lookup_witness :
    (sNa22 ≠ sGe68 ∧ sNa22 ≠ sGa68 ∧ sNa22 ≠ sF18 ∧ sNa22 ≠ sC11 ∧
      sNa22 ≠ sO15) ∧
    (riLUT sF18 = some ⟨Q.dec 967 3, Q.dec 10977120 5 * 60⟩ ∧
      riLUT sNa22 = Option.none) :=
  ⟨by decide, isotope_lookup sNa22 (by decide)⟩

/-- C8: when the device-discovery globals provide no values (`DEV_ID` and
`CC_ARCH` absent or `None`), `get_gpu_constants` and `get_setup` still
return a record and the GPU keys `"DEVID"` / `"CCARCH"` are simply absent
from it; GPU absence never raises an error at this layer. -/
theorem gpu_absence_not_error (g : Globals)
    (h1 : g.DEV_ID = Option.none) (h2 : g.CC_ARCH = Option.none) :
    get_gpu_constants g emptyCnt K.DEVID = Option.none ∧
    get_gpu_constants g emptyCnt K.CCARCH = Option.none ∧
    get_setup g emptyCnt K.DEVID = Option.none ∧
    get_setup g emptyCnt K.CCARCH = Option.none := by
  refine ⟨?_, ?_, ?_, ?_⟩ <;>
    simp [get_setup, get_gpu_constants, setOpt, CntMap.set, emptyCnt, h1, h2]

/-- C8 witness: the GPU keys are absent at the concrete all-absent
globals. -/
theorem gpu_absence_not_error_witness :
    noneGlobals.DEV_ID = Option.none ∧ noneGlobals.CC_ARCH = Option.none ∧
    (get_gpu_constants noneGlobals emptyCnt K.DEVID = Option.none ∧
     get_gpu_constants noneGlobals emptyCnt K.CCARCH = Option.none ∧
     get_setup noneGlobals emptyCnt K.DEVID = Option.none ∧
     get_setup noneGlobals emptyCnt K.CCARCH = Option.none) :=
  ⟨rfl, rfl, gpu_absence_not_error noneGlobals rfl rfl⟩

/-- C9: when `get_gpu_constants` stores a GPU identifier, the key is the
name of the global with underscores removed (`DEV_ID` is stored under `"DEVID"`
and `CC_ARCH` under `"CCARCH"`), and the keys `"DEV_ID"` / `"CC_ARCH"`
themselves never appear in any returned record (of `get_gpu_constants`,
`get_setup`, or any of the four builders). -/
theorem gpu_key_underscores_stripped (g : Globals) (v w : Val)
    (hd : g.DEV_ID = some v) (hc : g.CC_ARCH = some w) :
    get_gpu_constants g emptyCnt K.DEVID = some v ∧
    get_gpu_constants g emptyCnt K.CCARCH = some w ∧
    (∀ g2 : Globals,
      get_gpu_constants g2 emptyCnt K.DEV_ID = Option.none ∧
      get_gpu_constants g2 emptyCnt K.CC_ARCH = Option.none ∧
      get_setup g2 emptyCnt K.DEV_ID = Option.none ∧
      get_setup g2 emptyCnt K.CC_ARCH = Option.none ∧
      get_sig_constants g2 K.DEV_ID = Option.none ∧
      get_sig_constants g2 K.CC_ARCH = Option.none ∧
      get_synchropet_constants g2 K.DEV_ID = Option.none ∧
      get_synchropet_constants g2 K.CC_ARCH = Option.none ∧
      get_inv_constants g2 K.DEV_ID = Option.none ∧
      get_inv_constants g2 K.CC_ARCH = Option.none ∧
      get_mmr_constants g2 K.DEV_ID = Option.none ∧
      get_mmr_constants g2 K.CC_ARCH = Option.none) := by
  refine ⟨?_, ?_, ?_⟩
  · simp [get_gpu_constants, setOpt, hd]
  · simp [get_gpu_constants, setOpt, hc]
  · intro g2
    exact ⟨rfl, rfl, rfl, rfl, rfl, rfl, rfl, rfl, rfl, rfl, rfl, rfl⟩

/-- C9 witness: the stored keys at concrete globals with a discovered
GPU. -/
theorem gpu_key_underscores_stripped_witness :
    gpuGlobals.DEV_ID = some (Val.i 0) ∧
    gpuGlobals.CC_ARCH = some (Val.s sArch) ∧
    (get_gpu_constants gpuGlobals emptyCnt K.DEVID = some (Val.i 0) ∧
     get_gpu_constants gpuGlobals emptyCnt K.CCARCH = some (Val.s sArch) ∧
     (∀ g2 : Globals,
       get_gpu_constants g2 emptyCnt K.DEV_ID = Option.none ∧
       get_gpu_constants g2 emptyCnt K.CC_ARCH = Option.none ∧
       get_setup g2 emptyCnt K.DEV_ID = Option.none ∧
       get_setup g2 emptyCnt K.CC_ARCH = Option.none ∧
       get_sig_constants g2 K.DEV_ID = Option.none ∧
       get_sig_constants g2 K.CC_ARCH = Option.none ∧
       get_synchropet_constants g2 K.DEV_ID = Option.none ∧
       get_synchropet_constants g2 K.CC_ARCH = Option.none ∧
       get_inv_constants g2 K.DEV_ID = Option.none ∧
       get_inv_constants g2 K.CC_ARCH = Option.none ∧
       get_mmr_constants g2 K.DEV_ID = Option.none ∧
       get_mmr_constants g2 K.CC_ARCH = Option.none)) :=
  ⟨rfl, rfl,
    gpu_key_underscores_stripped gpuGlobals (Val.i 0) (Val.s sArch) rfl rfl⟩

/-- C10: `get_gpu_constants` and `get_setup`, called on an existing record
`d`, keep every key of `d` present, and every key outside the fixed set the
function itself writes (`gpuKeys` for `get_gpu_constants`, `setupKeys` for
`get_setup`) still maps to its original value: the functions only add or
overwrite their own keys. -/
theorem setup_frame (g : Globals) (d : CntMap) (k : K) :
    (d k ≠ Option.none → get_gpu_constants g d k ≠ Option.none) ∧
    (d k ≠ Option.none → get_setup g d k ≠ Option.none) ∧
    (k ∉ gpuKeys → get_gpu_constants g d k = d k) ∧
    (k ∉ setupKeys → get_setup g d k = d k) := by
  refine ⟨?_, ?_, ?_, ?_⟩
  · intro h
    unfold get_gpu_constants
    exact setOpt_pres _ _ _ _ (setOpt_pres _ _ _ _ h)
  · intro h
    simp only [get_setup, get_gpu_constants]
    repeat first
      | exact h
      | apply setOpt_pres
      | apply set_pres
  · intro hk
    simp [gpuKeys] at hk
    obtain ⟨e1, e2⟩ := hk
    unfold get_gpu_constants
    rw [setOpt_at_diff _ _ _ _ e2, setOpt_at_diff _ _ _ _ e1]
  · intro hk
    simp [setupKeys] at hk
    obtain ⟨e1, e2, e3, e4, e5, e6, e7, e8, e9, e10, e11, e12, e13, e14,
      e15, e16, e17, e18, e19⟩ := hk
    simp only [get_setup, get_gpu_constants]
    rw [setOpt_at_diff _ _ _ _ e19, setOpt_at_diff _ _ _ _ e18,
      setOpt_at_diff _ _ _ _ e17, setOpt_at_diff _ _ _ _ e16,
      setOpt_at_diff _ _ _ _ e15, setOpt_at_diff _ _ _ _ e14,
      setOpt_at_diff _ _ _ _ e13, setOpt_at_diff _ _ _ _ e12,
      setOpt_at_diff _ _ _ _ e11, set_at_diff _ _ _ _ e10,
      set_at_diff _ _ _ _ e9, set_at_diff _ _ _ _ e8,
      set_at_diff _ _ _ _ e7, set_at_diff _ _ _ _ e6,
      set_at_diff _ _ _ _ e5, set_at_diff _ _ _ _ e4,
      set_at_diff _ _ _ _ e3, set_at_diff _ _ _ _ e2,
      set_at_diff _ _ _ _ e1]

/-- C10 witness: at a concrete caller record holding the key `TGAP`
(which neither function writes), the value survives both calls. -/
theorem setup_frame_witness :
    K.TGAP ∉ gpuKeys ∧ K.TGAP ∉ setupKeys ∧
    dUser K.TGAP = some (Val.i 7) ∧
    get_gpu_constants noneGlobals dUser K.TGAP = dUser K.TGAP ∧
    get_setup noneGlobals dUser K.TGAP = dUser K.TGAP ∧
    get_setup noneGlobals dUser K.TGAP ≠ Option.none :=
  ⟨by decide, by decide, rfl,
    (setup_frame noneGlobals dUser K.TGAP).2.2.1 (by decide),
    (setup_frame noneGlobals dUser K.TGAP).2.2.2 (by decide),
    (setup_frame noneGlobals dUser K.TGAP).2.1 (by decide)⟩

end NInst
